import Mathlib

/-!
Shallow embedding of the auto-reply pipeline of the WhatsApp_Bot repository
(backend/src/services/whatsapp.js, llmService.js, data.js), together with
theorems settling the specification claims.

JavaScript conventions used throughout the embedding:
* optional / possibly-`undefined` values are `Option`;
* string truthiness (`if (s)`) is "present and non-empty";
* `Map` objects are association lists with replace-on-set semantics;
* wall-clock readings (`new Date()`) are passed as explicit parameters
  (minutes since local midnight, epoch milliseconds).
-/

namespace WhatsAppBot

/-- JS `a || b` on strings: `a` when non-empty (truthy), else `b`. -/
def jsOrStr (a b : String) : String := if a = "" then b else a

/-- JS truthiness of a possibly-undefined string. -/
def jsTruthy (o : Option String) : Bool :=
  match o with
  | none => false
  | some s => s ≠ ""

/-- JS `a || b` on possibly-undefined strings (`msg.sender || msg.recipient`). -/
def jsOrOpt (a b : Option String) : Option String :=
  if jsTruthy a then a else b

/-- Lookup in an association list (JS `Map.get`). -/
def lookupKV {α β : Type} [DecidableEq α] : List (α × β) → α → Option β
  | [], _ => none
  | (k, v) :: rest, k' => if k = k' then some v else lookupKV rest k'

/-- Replace-or-append in an association list (JS `Map.set`). -/
def setKV {α β : Type} [DecidableEq α] : List (α × β) → α → β → List (α × β)
  | [], k, v => [(k, v)]
  | (k', v') :: rest, k, v =>
      if k' = k then (k, v) :: rest else (k', v') :: setKV rest k v

/-! ## Rate limiter (llmService.js 278-291)

`requestCount` is a `Map` from the string key `` `${userId}-${currentHour}` ``
to a count. -/

/-- The per-user per-hour request-count map of `LLMService`. -/
abbrev RequestCount := List (String × Nat)

/-- The bucket key `` `${userId}-${currentHour}` ``. -/
def rateKey (userId : String) (currentHour : Nat) : String :=
  userId ++ "-" ++ toString currentHour

/-- `this.requestCount.get(key) || 0`. -/
def getCount (rc : RequestCount) (key : String) : Nat :=
  (lookupKV rc key).getD 0

/-! ## LLM settings and service state (llmService.js constructor) -/

/-- The settings bundle held by `LLMService` (headers omitted as opaque). -/
structure LLMSettings where
  provider : String
  model : String
  apiKey : String
  baseURL : String
  maxTokens : Nat
  temperature : ℚ
  systemPrompt : String
  enabled : Bool
  fallbackMessage : String
  rateLimitPerHour : Nat
  timeout : Nat
  customEndpoint : String
deriving DecidableEq, Repr

/-- The defaults assigned in the `LLMService` constructor (empty env vars). -/
def defaultLLMSettings : LLMSettings where
  provider := "gemini"
  model := "gemini-pro"
  apiKey := ""
  baseURL := "https://api.openai.com/v1"
  maxTokens := 150
  temperature := 7/10
  systemPrompt := "You are a helpful WhatsApp bot assistant. Respond naturally and helpfully to user messages. Keep responses concise and friendly."
  enabled := false
  fallbackMessage := "I apologize, but I cannot process your message right now. Please try again later."
  rateLimitPerHour := 60
  timeout := 10000
  customEndpoint := ""

/-- Mutable state of `LLMService` relevant to response generation. -/
structure LLMState where
  isInitialized : Bool
  settings : LLMSettings
  requestCount : RequestCount
deriving DecidableEq, Repr

/-- `checkRateLimit(userId)`: pure read, `count < rateLimitPerHour`. -/
def checkRateLimit (st : LLMState) (userId : String) (currentHour : Nat) : Bool :=
  getCount st.requestCount (rateKey userId currentHour) < st.settings.rateLimitPerHour

/-- `incrementRequestCount(userId)`: `set(key, count + 1)`. -/
def incrementRequestCount (rc : RequestCount) (userId : String) (currentHour : Nat) :
    RequestCount :=
  let key := rateKey userId currentHour
  setKV rc key (getCount rc key + 1)

/-- `n` calls of `incrementRequestCount` for the same user and hour. -/
def recordN : Nat → RequestCount → String → Nat → RequestCount
  | 0, rc, _, _ => rc
  | n + 1, rc, u, h => recordN n (incrementRequestCount rc u h) u h

/-! ## Connection supervisor (whatsapp.js) -/

/-- The lifecycle fields of `WhatsAppService` touched by the supervisor. -/
structure SupState where
  status : String
  isReady : Bool
  retryCount : Nat
  maxRetries : Nat
  hasClientInfo : Bool
  qrCode : Option String
deriving DecidableEq, Repr

/-- Constructor state: `status = 'disconnected'`, `retryCount = 0`, `maxRetries = 3`. -/
def freshSupState : SupState where
  status := "disconnected"
  isReady := false
  retryCount := 0
  maxRetries := 3
  hasClientInfo := false
  qrCode := none

/-- `handleAuthFailure()` (whatsapp.js 478-494): increments `retryCount`; below
`maxRetries` it schedules a destroy/rebuild (returned flag `true`), otherwise it
sets the terminal status and schedules nothing (flag `false`). -/
def handleAuthFailure (st : SupState) : SupState × Bool :=
  let rc := st.retryCount + 1
  if rc < st.maxRetries then
    ({ st with retryCount := rc }, true)
  else
    ({ st with retryCount := rc, status := "auth_failed_max_retries" }, false)

/-- The `auth_failure` event handler (whatsapp.js 140-147): sets
`status = 'auth_failed'` then runs `handleAuthFailure`. -/
def authFailureEvent (st : SupState) : SupState × Bool :=
  handleAuthFailure { st with status := "auth_failed" }

/-- `n` consecutive `auth_failure` events. -/
def runAuthFailures : Nat → SupState → SupState
  | 0, st => st
  | n + 1, st => runAuthFailures n (authFailureEvent st).1

/-- `reconnect()` (whatsapp.js 524-541): `this.retryCount = 0`, then destroys
and rebuilds the client (no other supervisor field is assigned). -/
def reconnect (st : SupState) : SupState :=
  { st with retryCount := 0 }

/-- `disconnect()` (whatsapp.js 543-563): destroys the client and clears
`isReady`/`status`/`clientInfo`/`qrCode`; `retryCount` is not assigned. -/
def disconnect (st : SupState) : SupState :=
  { st with isReady := false, status := "disconnected",
            hasClientInfo := false, qrCode := none }

/-- `restart()` (whatsapp.js 659-678): `disconnect()` then rebuild and
re-initialize the client; no further supervisor field is assigned. -/
def restart (st : SupState) : SupState :=
  disconnect st

/-! ## Working hours (whatsapp.js 430-443) -/

/-- `settings.workingHours`: the `end` field is rendered `stop` (Lean keyword). -/
structure WorkingHoursCfg where
  enabled : Bool
  start : String
  stop : String
deriving DecidableEq, Repr

/-- `split(':')` over the character list (structurally recursive so that
proofs can evaluate it). -/
def splitColonAux : List Char → List Char → List String
  | [], acc => [⟨acc.reverse⟩]
  | c :: rest, acc =>
      if c = ':' then ⟨acc.reverse⟩ :: splitColonAux rest []
      else splitColonAux rest (c :: acc)

/-- `s.split(':')`. -/
def splitColon (s : String) : List String := splitColonAux s.data []

/-- Decimal digit-string value: `none` for the empty string or any
non-digit character (JS `NaN`). -/
def parseDecAux : List Char → Nat → Option Nat
  | [], acc => some acc
  | c :: rest, acc =>
      if '0' ≤ c ∧ c ≤ '9' then parseDecAux rest (acc * 10 + (c.toNat - 48))
      else none

/-- `Number(s)` on the pieces of an `HH:MM` string. -/
def parseDec (s : String) : Option Nat :=
  if s.data = [] then none else parseDecAux s.data 0

/-- `'HH:MM'.split(':').map(Number)` taking the first two parts; a missing or
non-numeric part (JS `NaN`) is rendered 0. -/
def parseHM (s : String) : Nat × Nat :=
  let parts := splitColon s
  ((parseDec (parts.getD 0 "")).getD 0, (parseDec (parts.getD 1 "")).getD 0)

/-- `isWithinWorkingHours(workingHours)`: `currentTime` is the wall clock as
minutes since local midnight (`getHours() * 60 + getMinutes()`); inclusive
comparison against the window decomposed the same way. -/
def isWithinWorkingHours (wh : WorkingHoursCfg) (currentTime : Nat) : Bool :=
  let s := parseHM wh.start
  let e := parseHM wh.stop
  let startTime := s.1 * 60 + s.2
  let endTime := e.1 * 60 + e.2
  decide (startTime ≤ currentTime) && decide (currentTime ≤ endTime)

/-! ## Response generation (llmService.js 94-135)

The awaited provider dispatch (the `switch` over
`generateOpenAIResponse`/`generateGeminiResponse`/`generateOllamaResponse`/
`generateCustomResponse`, each racing the network call against the timeout) is
the only non-deterministic step; it is passed in as an oracle
`providerResult : Except String String` — `.error` for a thrown error (provider
failure, `'Request timeout'`, unsupported provider), `.ok text` for the
resolved reply text. -/

/-- The `context` object built by `handleAutoReply` for `generateResponse`. -/
structure GenContext where
  sender : Option String
  senderName : Option String
  isGroup : Bool
  businessHours : Bool
  messageContent : String
deriving DecidableEq, Repr

/-- The literal returned by `generateResponse` when the rate limit is hit. -/
def rateLimitMessage : String :=
  "I apologize, but you have reached the hourly limit for AI responses. Please try again later."

/-- `buildSystemPrompt(context)` (llmService.js 259-276). -/
def buildSystemPrompt (settings : LLMSettings) (ctx : GenContext) : String :=
  let p0 := settings.systemPrompt
  let p1 := if ctx.isGroup then p0 ++ "\n\nNote: This is a group chat conversation." else p0
  let p2 := if jsTruthy ctx.senderName then
              p1 ++ "\n\nYou are responding to " ++ ctx.senderName.getD "" ++ "."
            else p1
  if !ctx.businessHours then
    p2 ++ "\n\nNote: This is outside business hours, so keep responses brief and mention business hours if relevant."
  else p2

/-- `generateResponse(userMessage, context)` (llmService.js 94-135): returns
the reply text (`none` models the JS `null`) and the request-count map after
the call. Not initialized or disabled: `null`. Rate limited: a static apology,
map untouched. Provider success: the text, map incremented for the sender.
Provider error (caught): the configured `fallbackMessage`, map untouched. -/
def generateResponse (st : LLMState) (ctx : GenContext)
    (providerResult : Except String String) (currentHour : Nat) :
    Option String × RequestCount :=
  if !st.isInitialized || !st.settings.enabled then
    (none, st.requestCount)
  else
    let userId := jsOrStr ((ctx.sender).getD "") "unknown"
    if !(checkRateLimit st userId currentHour) then
      (some rateLimitMessage, st.requestCount)
    else
      match providerResult with
      | .ok response => (some response, incrementRequestCount st.requestCount userId currentHour)
      | .error _ => (some st.settings.fallbackMessage, st.requestCount)

/-! ## Auto-reply gate (whatsapp.js 312-428) -/

/-- The fields of `dataService.getSettings()` read by `handleAutoReply`;
`llmEnabled`/`llmAutoReply` are `settings.llm.enabled`/`settings.llm.autoReply`.
`allowedContacts`/`blockedContacts` render a missing array as `[]` (the JS
optional-chaining tests make `undefined` behave exactly like an empty array
here). -/
structure GateSettings where
  autoReply : Bool
  workingHours : Option WorkingHoursCfg
  allowedContacts : List String
  blockedContacts : List String
  llmEnabled : Bool
  llmAutoReply : Bool
  autoReplyMessage : Option String
  afterHoursMessage : Option String
deriving DecidableEq, Repr

/-- The fields of the inbound message pair (`message`, `messageData`) that the
gate reads: `fromMe`/`isGroupMsg` from the transport message, the rest from the
processed `messageData`. -/
structure MsgIn where
  sender : String
  senderName : String
  content : String
  fromMe : Bool
  isGroupMsg : Bool
deriving DecidableEq, Repr

/-- The record passed to `trackAutoReply` (timestamp omitted: wall clock). -/
structure AutoReplyRecord where
  sender : String
  senderName : String
  message : String
  response : String
  responseType : String
  isGroup : Bool
  isWorkingHours : Bool
deriving DecidableEq, Repr

/-- Observable outcome of one `handleAutoReply` run: the transport sends
attempted in order (recipient, text), the analytics record produced by
`trackAutoReply` (if reached), and the final request-count map. -/
structure AutoReplyOutcome where
  sends : List (String × String)
  record : Option AutoReplyRecord
  requestCount : RequestCount
deriving DecidableEq, Repr

/-- The literal sent by the catch block of `handleAutoReply` after a failed
reply send. -/
def replyFailureNotice : String :=
  "I apologize, but I cannot process your message right now. Please try again later."

/-- `getDefaultAutoReplyMessage(settings, isWorkingHours)` (whatsapp.js 398-403). -/
def getDefaultAutoReplyMessage (settings : GateSettings) (isWorkingHours : Bool) : String :=
  if !isWorkingHours && jsTruthy settings.afterHoursMessage then
    settings.afterHoursMessage.getD ""
  else
    jsOrStr (settings.autoReplyMessage.getD "")
      "Thanks for your message! We will get back to you soon."

/-- `handleAutoReply(message, messageData)` (whatsapp.js 312-396). `nowMin` is
the wall clock in minutes since local midnight (the hour bucket for the rate
limiter is `nowMin / 60`); `providerResult` is the provider oracle (see
`generateResponse`); `sendOk` tells whether the transport send of the reply
succeeds. On send failure the catch block attempts one generic notice and
`trackAutoReply` is never reached. -/
def handleAutoReply (settings : GateSettings) (msg : MsgIn) (nowMin : Nat)
    (llmSt : LLMState) (providerResult : Except String String) (sendOk : Bool) :
    AutoReplyOutcome :=
  if !settings.autoReply || msg.fromMe then
    ⟨[], none, llmSt.requestCount⟩
  else
    let isWorkingHours :=
      match settings.workingHours with
      | none => true
      | some wh => !wh.enabled || isWithinWorkingHours wh nowMin
    if settings.allowedContacts.length > 0 && !(settings.allowedContacts.contains msg.sender) then
      ⟨[], none, llmSt.requestCount⟩
    else if settings.blockedContacts.contains msg.sender then
      ⟨[], none, llmSt.requestCount⟩
    else
      let staticReply :=
        (getDefaultAutoReplyMessage settings isWorkingHours,
         if isWorkingHours then "default" else "afterHours")
      let step :=
        if settings.llmEnabled && settings.llmAutoReply then
          let ctx : GenContext :=
            ⟨some msg.sender, some msg.senderName, msg.isGroupMsg, isWorkingHours, msg.content⟩
          let r := generateResponse llmSt ctx providerResult (nowMin / 60)
          (match r.1 with
           | some t => if t ≠ "" then ((t, "llm"), r.2) else (staticReply, r.2)
           | none => (staticReply, r.2))
        else
          (staticReply, llmSt.requestCount)
      let replyMessage := step.1.1
      let responseType := step.1.2
      if sendOk then
        ⟨[(msg.sender, replyMessage)],
         some ⟨msg.sender, msg.senderName, msg.content, replyMessage, responseType,
               msg.isGroupMsg, isWorkingHours⟩,
         step.2⟩
      else
        ⟨[(msg.sender, replyMessage), (msg.sender, replyFailureNotice)], none, step.2⟩

/-! ## Settings update (llmService.js 304-315) -/

/-- The `newSettings` argument of `updateSettings`: a partial object; absent
keys are `none` (JS `undefined`). -/
structure LLMSettingsUpdate where
  provider : Option String := none
  model : Option String := none
  apiKey : Option String := none
  baseURL : Option String := none
  maxTokens : Option Nat := none
  temperature : Option ℚ := none
  systemPrompt : Option String := none
  enabled : Option Bool := none
  fallbackMessage : Option String := none
  rateLimitPerHour : Option Nat := none
  timeout : Option Nat := none
  customEndpoint : Option String := none
deriving DecidableEq, Repr

/-- `this.settings = { ...this.settings, ...newSettings }`. -/
def mergeSettings (old : LLMSettings) (u : LLMSettingsUpdate) : LLMSettings where
  provider := u.provider.getD old.provider
  model := u.model.getD old.model
  apiKey := u.apiKey.getD old.apiKey
  baseURL := u.baseURL.getD old.baseURL
  maxTokens := u.maxTokens.getD old.maxTokens
  temperature := u.temperature.getD old.temperature
  systemPrompt := u.systemPrompt.getD old.systemPrompt
  enabled := u.enabled.getD old.enabled
  fallbackMessage := u.fallbackMessage.getD old.fallbackMessage
  rateLimitPerHour := u.rateLimitPerHour.getD old.rateLimitPerHour
  timeout := u.timeout.getD old.timeout
  customEndpoint := u.customEndpoint.getD old.customEndpoint

/-- The condition under which `updateSettings(newSettings)` calls
`this.initialize(...)`:
`newSettings.enabled !== oldEnabled || newSettings.provider ||
newSettings.apiKey || newSettings.baseURL`. An absent `enabled` key is
`undefined`, which is `!==` any boolean; the string fields count by JS
truthiness. -/
def triggersReinit (old : LLMSettings) (u : LLMSettingsUpdate) : Bool :=
  (match u.enabled with
   | none => true
   | some b => b ≠ old.enabled)
  || jsTruthy u.provider || jsTruthy u.apiKey || jsTruthy u.baseURL

/-! ## Analytics aggregator (data.js 230-293) -/

/-- One value of the `dailyStats` map (the `date` field is the key itself). -/
structure DayStats where
  total : Nat
  sent : Nat
  received : Nat
  failed : Nat
deriving DecidableEq, Repr

/-- One value of the `contactStats` map (the `phone` field is the key itself). -/
structure ContactStat where
  messageCount : Nat
  firstContact : Nat
  lastActive : Nat
deriving DecidableEq, Repr

/-- One entry of `analytics.errorLog`. -/
structure ErrorEntry where
  timestamp : Nat
  error : String
  messageId : String
  contact : Option String
deriving DecidableEq, Repr

/-- The message objects consumed by the analytics functions. `timestamp` is
epoch milliseconds (UTC); a message carries `sender` when incoming and
`recipient` when outgoing. -/
structure MsgData where
  id : String
  sender : Option String
  recipient : Option String
  content : String
  direction : String
  status : String
  timestamp : Nat
  error : Option String := none
deriving DecidableEq, Repr

/-- `new Date(ts).toISOString().split('T')[0]`: the UTC calendar date,
rendered as the epoch-day number (an injective recoding of `YYYY-MM-DD`). -/
def dateKey (ts : Nat) : Nat := ts / 86400000

/-- `new Date(ts).getHours()`: the local hour of day; the local zone is
passed as a nonnegative minute shift `tzShiftMin` (a UTC offset of `-u`
minutes is the shift `1440 - u`). -/
def localHour (tzShiftMin : Nat) (ts : Nat) : Nat :=
  ((ts / 60000 + tzShiftMin) / 60) % 24

/-- In-memory analytics state of `DataService` (the parts `updateAnalytics`
writes). `hourlyDistribution` is the 24-slot counter array. -/
structure AnalyticsState where
  dailyStats : List (Nat × DayStats)
  hourlyDistribution : List Nat
  contactStats : List (String × ContactStat)
  errorLog : List ErrorEntry
deriving DecidableEq, Repr

/-- The initial analytics state (all empty, 24 zeroed hourly slots). -/
def initAnalytics : AnalyticsState :=
  ⟨[], List.replicate 24 0, [], []⟩

/-- The per-day counter update inside `updateAnalytics`: `total++` and then
exactly one of `failed++` (outgoing failed), `sent++` (outgoing other), or
`received++` (non-outgoing). -/
def dayStep (m : MsgData) (day0 : DayStats) : DayStats :=
  let day1 := { day0 with total := day0.total + 1 }
  if m.direction = "outgoing" then
    if m.status = "failed" then { day1 with failed := day1.failed + 1 }
    else { day1 with sent := day1.sent + 1 }
  else { day1 with received := day1.received + 1 }

/-- `updateAnalytics(messageData)` (data.js 230-293): lazily creates the day
record and applies `dayStep`, bumps the hourly slot, updates the contact
stats keyed by `sender || recipient` when truthy, and appends to the capped
error log when the message failed with a truthy `error`. -/
def updateAnalytics (tzShiftMin : Nat) (st : AnalyticsState) (m : MsgData) :
    AnalyticsState :=
  let dk := dateKey m.timestamp
  let hour := localHour tzShiftMin m.timestamp
  let day0 := (lookupKV st.dailyStats dk).getD ⟨0, 0, 0, 0⟩
  let day2 := dayStep m day0
  let daily' := setKV st.dailyStats dk day2
  let hourly' := st.hourlyDistribution.set hour (st.hourlyDistribution.getD hour 0 + 1)
  let contact := jsOrOpt m.sender m.recipient
  let contacts' :=
    if jsTruthy contact then
      let c := contact.getD ""
      let cs0 := (lookupKV st.contactStats c).getD ⟨0, m.timestamp, m.timestamp⟩
      setKV st.contactStats c
        { cs0 with messageCount := cs0.messageCount + 1, lastActive := m.timestamp }
    else st.contactStats
  let errors' :=
    if m.status = "failed" && jsTruthy m.error then
      let log := st.errorLog ++ [⟨m.timestamp, m.error.getD "", m.id, contact⟩]
      if log.length > 1000 then log.drop (log.length - 1000) else log
    else st.errorLog
  ⟨daily', hourly', contacts', errors'⟩

/-! ## Response times (data.js 372-414) -/

/-- The `{average, fastest, slowest}` result, after `Math.round`. -/
structure ResponseTimeStats where
  average : ℤ
  fastest : ℤ
  slowest : ℤ
deriving DecidableEq, Repr

/-- JS `Math.round`: half-up, i.e. `⌊q + 1/2⌋`. -/
def jsRound (q : ℚ) : ℤ := ⌊q + 1/2⌋

/-- Append a message to its contact group, creating the group at the end on
first sight (JS `Map` insertion order). -/
def addToGroup : List (Option String × List MsgData) → Option String → MsgData →
    List (Option String × List MsgData)
  | [], c, m => [(c, [m])]
  | (c', g) :: rest, c, m =>
      if c' = c then (c', g ++ [m]) :: rest else (c', g) :: addToGroup rest c m

/-- The `contactMessages` map: group by `msg.sender || msg.recipient`. -/
def groupByContact (msgs : List MsgData) : List (Option String × List MsgData) :=
  msgs.foldl (fun acc m => addToGroup acc (jsOrOpt m.sender m.recipient) m) []

/-- Stable insertion into a timestamp-sorted list. -/
def insertByTs (m : MsgData) : List MsgData → List MsgData
  | [] => [m]
  | x :: xs => if m.timestamp < x.timestamp then m :: x :: xs else x :: insertByTs m xs

/-- `msgs.sort((a, b) => new Date(a.timestamp) - new Date(b.timestamp))`
(stable, ascending). -/
def sortByTs (l : List MsgData) : List MsgData := l.foldr insertByTs []

/-- The adjacent-pair scan of one sorted group: a sample (in seconds) for each
outgoing message immediately preceded by an incoming one. -/
def pairSamples : List MsgData → List ℚ
  | [] => []
  | [_] => []
  | p :: c :: rest =>
      (if c.direction = "outgoing" && p.direction = "incoming" then
        [((c.timestamp : ℚ) - (p.timestamp : ℚ)) / 1000]
      else []) ++ pairSamples (c :: rest)

/-- All response-time samples of `calculateResponseTimes`, in emission order. -/
def responseTimesOf (msgs : List MsgData) : List ℚ :=
  (groupByContact msgs).foldl (fun acc g => acc ++ pairSamples (sortByTs g.2)) []

/-- `calculateResponseTimes(messages)` (data.js 372-414): zeros when no sample
qualifies, otherwise rounded average / `Math.min` / `Math.max` of the samples. -/
def calculateResponseTimes (msgs : List MsgData) : ResponseTimeStats :=
  match responseTimesOf msgs with
  | [] => ⟨0, 0, 0⟩
  | q :: qs =>
      let rts := q :: qs
      ⟨jsRound ((rts.foldl (· + ·) 0) / (rts.length : ℚ)),
       jsRound (qs.foldl min q),
       jsRound (qs.foldl max q)⟩

/-! ## Concrete scenario inputs used by the theorems -/

/-- A plain inbound text from sender `111`. -/
def exMsgIn : MsgIn := ⟨"111", "Bob", "hello", false, false⟩

/-- Gate settings: auto-reply on, business hours 09:00-17:00 enabled, no
contact lists, LLM path off, an after-hours message configured. -/
def exSettingsC1 : GateSettings :=
  ⟨true, some ⟨true, "09:00", "17:00"⟩, [], [], false, false, none, some "We are closed."⟩

/-- Gate settings: auto-reply on, no business-hours restriction, LLM path on. -/
def exSettingsC2 : GateSettings :=
  ⟨true, none, [], [], true, true, none, none⟩

/-- An `LLMService` that never initialized (LLM path off). -/
def exLLMOff : LLMState := ⟨false, defaultLLMSettings, []⟩

/-- An initialized, enabled `LLMService` with a fresh request-count map. -/
def exLLMOn : LLMState := ⟨true, { defaultLLMSettings with enabled := true }, []⟩

/-- An initialized, enabled `LLMService` whose sender `111` already used up
its 2-per-hour budget in hour bucket 10. -/
def exLLMLimited : LLMState :=
  ⟨true, { defaultLLMSettings with enabled := true, rateLimitPerHour := 2 },
   recordN 2 [] "111" 10⟩

/-- The single-contact message sequence of the response-time scenario:
`[in@t0, out@t0+5s, in@t0+10s, in@t0+20s, out@t0+25s]`. -/
def exC6Msgs : List MsgData :=
  [⟨"m1", some "c", none, "hi", "incoming", "received", 0, none⟩,
   ⟨"m2", none, some "c", "re", "outgoing", "sent", 5000, none⟩,
   ⟨"m3", some "c", none, "q2", "incoming", "received", 10000, none⟩,
   ⟨"m4", some "c", none, "q3", "incoming", "received", 20000, none⟩,
   ⟨"m5", none, some "c", "re2", "outgoing", "sent", 25000, none⟩]

/-- A two-message incoming-only sequence (no qualifying pair). -/
def exC6NoPair : List MsgData :=
  [⟨"n1", some "c", none, "hi", "incoming", "received", 0, none⟩,
   ⟨"n2", some "c", none, "ho", "incoming", "received", 9000, none⟩]

/-- A supervisor mid-flight with a partially spent retry budget. -/
def exSupState : SupState := ⟨"connected", true, 2, 3, true, none⟩

/-- One incoming message at epoch 0 (analytics witness input). -/
def exIncomingMsg : MsgData :=
  ⟨"a1", some "c", none, "hi", "incoming", "received", 0, none⟩

/-- The per-day counter invariant of the analytics aggregator. -/
def dayInv (d : DayStats) : Prop :=
  d.total = d.sent + d.received + d.failed

/-! # Helper lemmas -/

theorem lookupKV_setKV {α β : Type} [DecidableEq α] (l : List (α × β)) (k k' : α) (v : β) :
    lookupKV (setKV l k v) k' = if k = k' then some v else lookupKV l k' := by
  induction l with
  | nil => simp [setKV, lookupKV]
  | cons p rest ih =>
      obtain ⟨a, b⟩ := p
      by_cases hak : a = k
      · subst hak
        simp only [setKV, if_pos rfl, lookupKV]
        by_cases hk' : a = k' <;> simp [hk']
      · simp only [setKV, if_neg hak, lookupKV, ih]
        by_cases hak' : a = k'
        · subst hak'
          have hk : k ≠ a := fun h => hak h.symm
          simp [hk]
        · simp [hak']

theorem getCount_recordN (n : Nat) (rc : RequestCount) (u : String) (h : Nat) :
    getCount (recordN n rc u h) (rateKey u h) = getCount rc (rateKey u h) + n := by
  induction n generalizing rc with
  | zero => simp [recordN]
  | succ n ih =>
      rw [recordN, ih]
      simp [incrementRequestCount, getCount, lookupKV_setKV]
      omega

/-! # Claim theorems -/

/-- C4: for every sender `S` and configured limit `N`, after `N` recorded
requests in one hour bucket the count is `N` and `checkRateLimit` returns
`false`; a denied request through `generateResponse` returns the rate-limit
apology and leaves the request-count map (hence the bucket count) unchanged —
the allow check itself never mutates limiter state. -/
theorem rateLimiter_denies_at_limit (N : Nat) (S : String) (hr : Nat)
    (stgs : LLMSettings) (hlim : stgs.rateLimitPerHour = N)
    (hen : stgs.enabled = true) (hS : S ≠ "") :
    getCount (recordN N [] S hr) (rateKey S hr) = N
    ∧ checkRateLimit ⟨true, stgs, recordN N [] S hr⟩ S hr = false
    ∧ ∀ (ctx : GenContext) (pr : Except String String), ctx.sender = some S →
        generateResponse ⟨true, stgs, recordN N [] S hr⟩ ctx pr hr
          = (some rateLimitMessage, recordN N [] S hr) := by
  have hcount : getCount (recordN N [] S hr) (rateKey S hr) = N := by
    simpa [getCount, lookupKV] using getCount_recordN N [] S hr
  have hchk : checkRateLimit ⟨true, stgs, recordN N [] S hr⟩ S hr = false := by
    simp [checkRateLimit, hcount, hlim]
  refine ⟨hcount, hchk, ?_⟩
  intro ctx pr hsend
  simp [generateResponse, hen, hsend, jsOrStr, hS, hchk]

/-- C4 witness: with limit 2, sender `alice` is denied after 2 recorded
requests and the denial leaves the map unchanged. -/
theorem rateLimiter_denies_at_limit_witness :
    checkRateLimit ⟨true, { defaultLLMSettings with enabled := true, rateLimitPerHour := 2 },
        recordN 2 [] "alice" 10⟩ "alice" 10 = false
    ∧ generateResponse ⟨true, { defaultLLMSettings with enabled := true, rateLimitPerHour := 2 },
        recordN 2 [] "alice" 10⟩ ⟨some "alice", none, false, true, "x"⟩ (.ok "y") 10
        = (some rateLimitMessage, recordN 2 [] "alice" 10) := by
  have h := rateLimiter_denies_at_limit 2 "alice" 10
    { defaultLLMSettings with enabled := true, rateLimitPerHour := 2 } rfl rfl (by decide)
  exact ⟨h.2.1, h.2.2 ⟨some "alice", none, false, true, "x"⟩ (.ok "y") rfl⟩

/-- C7: from a fresh supervisor (`retryCount = 0`, `maxRetries = 3`), three
consecutive `auth_failure` events leave the terminal status
`auth_failed_max_retries`, and a further `auth_failure` event schedules no
retry/reconstruction of the client. -/
theorem supervisor_authFailure_terminal :
    (runAuthFailures 3 freshSupState).status = "auth_failed_max_retries"
    ∧ (authFailureEvent (runAuthFailures 3 freshSupState)).2 = false := by
  decide

/-- C8 counterexample: a supervisor with `retryCount = 2` keeps that value
across `disconnect()` and `restart()` — these operations do not reset the
retry counter to zero as claimed. -/
theorem manualOps_reset_cex :
    (disconnect exSupState).retryCount ≠ 0 ∧ (restart exSupState).retryCount ≠ 0 := by
  decide

/-- C8 (amended): only `reconnect()` resets the retry counter to zero;
`disconnect()` and `restart()` leave it unchanged for every prior value. -/
theorem manualOps_retryCount (st : SupState) :
    (reconnect st).retryCount = 0
    ∧ (disconnect st).retryCount = st.retryCount
    ∧ (restart st).retryCount = st.retryCount :=
  ⟨rfl, rfl, rfl⟩

/-- C9 counterexample: the parameter-only update `{ maxTokens: 200 }` (no
enablement, provider, or credential change) triggers re-initialization,
because the absent `enabled` key is `undefined`, which is `!==` the stored
boolean. -/
theorem updateSettings_reinit_cex :
    triggersReinit defaultLLMSettings { maxTokens := some 200 } = true := by
  decide

/-- C9 (amended): `updateSettings` re-initializes exactly when the update's
`enabled` differs from the stored flag — an absent `enabled` key always
counts as different — or the update carries a truthy `provider`, `apiKey`, or
`baseURL` (changed or not); a parameter-only change avoids re-initialization
only when it explicitly repeats the current `enabled` value. -/
theorem updateSettings_reinit_condition (old : LLMSettings) (u : LLMSettingsUpdate) :
    (u.enabled = some old.enabled → jsTruthy u.provider = false →
      jsTruthy u.apiKey = false → jsTruthy u.baseURL = false →
      triggersReinit old u = false)
    ∧ (u.enabled = none → triggersReinit old u = true)
    ∧ (jsTruthy u.provider = true → triggersReinit old u = true)
    ∧ (jsTruthy u.apiKey = true → triggersReinit old u = true)
    ∧ (jsTruthy u.baseURL = true → triggersReinit old u = true)
    ∧ (∀ b : Bool, u.enabled = some b → b ≠ old.enabled → triggersReinit old u = true) := by
  unfold triggersReinit
  refine ⟨?_, ?_, ?_, ?_, ?_, ?_⟩
  · intro h1 h2 h3 h4
    simp [h1, h2, h3, h4]
  · intro h1
    simp [h1]
  · intro h1
    simp [h1]
  · intro h1
    simp [h1]
  · intro h1
    simp [h1]
  · intro b h1 h2
    simp [h1, h2]

/-- C9 witness: an update that repeats the current `enabled` flag and only
changes `maxTokens` does not re-initialize. -/
theorem updateSettings_reinit_condition_witness :
    triggersReinit defaultLLMSettings { enabled := some false, maxTokens := some 200 } = false :=
  (updateSettings_reinit_condition defaultLLMSettings
    { enabled := some false, maxTokens := some 200 }).1 rfl rfl rfl rfl

/-- C1 counterexample: with the business-hours restriction enabled
(`09:00`-`17:00`) and the clock at `08:59`, the gate does not reject — it
sends the configured after-hours message and records `responseType =
'afterHours'`, contradicting "no reply of any kind is sent". -/
theorem gate_businessHours_reject_cex :
    (handleAutoReply exSettingsC1 exMsgIn (8 * 60 + 59) exLLMOff (.error "provider down") true).sends
      ≠ []
    ∧ (handleAutoReply exSettingsC1 exMsgIn (8 * 60 + 59) exLLMOff (.error "provider down") true).record
      = some ⟨"111", "Bob", "hello", "We are closed.", "afterHours", false, false⟩ := by
  decide

/-- C1 (amended): when the business-hours restriction is enabled and the
current time is outside the window, the gate still replies: with the LLM path
off it sends the default/after-hours static message with `responseType =
'afterHours'` and records `isWorkingHours = false`; window membership itself
is inclusive — for `09:00`-`17:00`, `09:00` and `17:00` are inside, `08:59`
and `17:01` outside. -/
theorem gate_businessHours_afterHours_path (settings : GateSettings) (msg : MsgIn)
    (nowMin : Nat) (llmSt : LLMState) (pr : Except String String) (wh : WorkingHoursCfg)
    (har : settings.autoReply = true) (hfm : msg.fromMe = false)
    (hwh : settings.workingHours = some wh) (hen : wh.enabled = true)
    (hout : isWithinWorkingHours wh nowMin = false)
    (hallow : (settings.allowedContacts.length > 0
        && !(settings.allowedContacts.contains msg.sender)) = false)
    (hblock : settings.blockedContacts.contains msg.sender = false)
    (hllm : (settings.llmEnabled && settings.llmAutoReply) = false) :
    handleAutoReply settings msg nowMin llmSt pr true =
      ⟨[(msg.sender, getDefaultAutoReplyMessage settings false)],
       some ⟨msg.sender, msg.senderName, msg.content,
             getDefaultAutoReplyMessage settings false, "afterHours",
             msg.isGroupMsg, false⟩,
       llmSt.requestCount⟩
    ∧ isWithinWorkingHours ⟨true, "09:00", "17:00"⟩ (9 * 60) = true
    ∧ isWithinWorkingHours ⟨true, "09:00", "17:00"⟩ (17 * 60) = true
    ∧ isWithinWorkingHours ⟨true, "09:00", "17:00"⟩ (8 * 60 + 59) = false
    ∧ isWithinWorkingHours ⟨true, "09:00", "17:00"⟩ (17 * 60 + 1) = false := by
  refine ⟨?_, by decide, by decide, by decide, by decide⟩
  have hallow' : ¬(0 < settings.allowedContacts.length
      ∧ msg.sender ∉ settings.allowedContacts) := by
    rintro ⟨h1, h2⟩
    simp [h1, h2] at hallow
  have hblock' : msg.sender ∉ settings.blockedContacts := by
    simpa using hblock
  unfold handleAutoReply
  simp [har, hfm, hwh, hen, hout, hallow', hblock', hllm]

/-- C1 witness: the amended statement at the concrete `08:59` scenario. -/
theorem gate_businessHours_afterHours_path_witness :
    handleAutoReply exSettingsC1 exMsgIn (8 * 60 + 59) exLLMOff (.error "provider down") true =
      ⟨[("111", getDefaultAutoReplyMessage exSettingsC1 false)],
       some ⟨"111", "Bob", "hello", getDefaultAutoReplyMessage exSettingsC1 false,
             "afterHours", false, false⟩,
       []⟩ := by
  exact (gate_businessHours_afterHours_path exSettingsC1 exMsgIn (8 * 60 + 59) exLLMOff
    (.error "provider down") ⟨true, "09:00", "17:00"⟩ rfl rfl rfl rfl (by decide)
    (by decide) (by decide) (by decide)).1

/-- C2 counterexample: with the LLM path enabled and the provider failing
(`Request timeout`), the reply sent is the generator's `fallbackMessage` and
the recorded `responseType` is `'llm'` — not `'default'`/`'afterHours'` —
because `generateResponse` catches the error and returns the truthy fallback
string. (The limiter is indeed not charged.) -/
theorem generationFailure_cex :
    (handleAutoReply exSettingsC2 exMsgIn (10 * 60) exLLMOn (.error "Request timeout") true).record
      = some ⟨"111", "Bob", "hello",
              "I apologize, but I cannot process your message right now. Please try again later.",
              "llm", false, true⟩
    ∧ (handleAutoReply exSettingsC2 exMsgIn (10 * 60) exLLMOn (.error "Request timeout") true).requestCount
      = [] := by
  decide

/-- C2 (amended): on generation failure the generator returns the configured
`fallbackMessage`, which the gate treats as a successful LLM reply: the
fallback text is sent, the recorded `responseType` is `'llm'`, and the
per-sender rate-limit count is not incremented. -/
theorem generationFailure_fallback_llm (settings : GateSettings) (msg : MsgIn)
    (nowMin : Nat) (llmSt : LLMState) (e : String)
    (har : settings.autoReply = true) (hfm : msg.fromMe = false)
    (hallow : (settings.allowedContacts.length > 0
        && !(settings.allowedContacts.contains msg.sender)) = false)
    (hblock : settings.blockedContacts.contains msg.sender = false)
    (hllm : (settings.llmEnabled && settings.llmAutoReply) = true)
    (hinit : llmSt.isInitialized = true) (hsen : llmSt.settings.enabled = true)
    (hrl : checkRateLimit llmSt (jsOrStr msg.sender "unknown") (nowMin / 60) = true)
    (hfb : llmSt.settings.fallbackMessage ≠ "") :
    handleAutoReply settings msg nowMin llmSt (.error e) true =
      ⟨[(msg.sender, llmSt.settings.fallbackMessage)],
       some ⟨msg.sender, msg.senderName, msg.content, llmSt.settings.fallbackMessage,
             "llm", msg.isGroupMsg,
             (match settings.workingHours with
              | none => true
              | some wh => !wh.enabled || isWithinWorkingHours wh nowMin)⟩,
       llmSt.requestCount⟩ := by
  have hallow' : ¬(0 < settings.allowedContacts.length
      ∧ msg.sender ∉ settings.allowedContacts) := by
    rintro ⟨h1, h2⟩
    simp [h1, h2] at hallow
  have hblock' : msg.sender ∉ settings.blockedContacts := by
    simpa using hblock
  unfold handleAutoReply generateResponse
  simp [har, hfm, hallow', hblock', hllm, hinit, hsen, hrl, hfb]

/-- C2 witness: the amended statement at the concrete timeout scenario. -/
theorem generationFailure_fallback_llm_witness :
    handleAutoReply exSettingsC2 exMsgIn (10 * 60) exLLMOn (.error "Request timeout") true =
      ⟨[("111", exLLMOn.settings.fallbackMessage)],
       some ⟨"111", "Bob", "hello", exLLMOn.settings.fallbackMessage, "llm", false, true⟩,
       []⟩ := by
  exact generationFailure_fallback_llm exSettingsC2 exMsgIn (10 * 60) exLLMOn
    "Request timeout" rfl rfl (by decide) (by decide) rfl rfl rfl (by decide) (by decide)

/-- C3 counterexample: a sender at the rate limit still gets a reply (the
static rate-limit apology) and an `AutoReplyRecord` is still produced — the
chain does not silently short-circuit at the rate-limiter predicate. -/
theorem rateLimited_shortCircuit_cex :
    (handleAutoReply exSettingsC2 exMsgIn (10 * 60) exLLMLimited (.ok "real reply") true).sends
      ≠ []
    ∧ (handleAutoReply exSettingsC2 exMsgIn (10 * 60) exLLMLimited (.ok "real reply") true).record
      ≠ none := by
  decide

/-- C3 (amended): when the sender's current-hour bucket is at/over the limit,
`generateResponse` returns the static rate-limit apology without touching the
limiter; the gate sends it as the reply with `responseType = 'llm'` and still
produces an `AutoReplyRecord`. -/
theorem rateLimited_apology_reply (settings : GateSettings) (msg : MsgIn)
    (nowMin : Nat) (llmSt : LLMState) (pr : Except String String)
    (har : settings.autoReply = true) (hfm : msg.fromMe = false)
    (hallow : (settings.allowedContacts.length > 0
        && !(settings.allowedContacts.contains msg.sender)) = false)
    (hblock : settings.blockedContacts.contains msg.sender = false)
    (hllm : (settings.llmEnabled && settings.llmAutoReply) = true)
    (hinit : llmSt.isInitialized = true) (hsen : llmSt.settings.enabled = true)
    (hrl : checkRateLimit llmSt (jsOrStr msg.sender "unknown") (nowMin / 60) = false) :
    handleAutoReply settings msg nowMin llmSt pr true =
      ⟨[(msg.sender, rateLimitMessage)],
       some ⟨msg.sender, msg.senderName, msg.content, rateLimitMessage, "llm",
             msg.isGroupMsg,
             (match settings.workingHours with
              | none => true
              | some wh => !wh.enabled || isWithinWorkingHours wh nowMin)⟩,
       llmSt.requestCount⟩ := by
  have hallow' : ¬(0 < settings.allowedContacts.length
      ∧ msg.sender ∉ settings.allowedContacts) := by
    rintro ⟨h1, h2⟩
    simp [h1, h2] at hallow
  have hblock' : msg.sender ∉ settings.blockedContacts := by
    simpa using hblock
  have hne : rateLimitMessage ≠ "" := by decide
  unfold handleAutoReply generateResponse
  simp [har, hfm, hallow', hblock', hllm, hinit, hsen, hrl, hne]

/-- C3 witness: the amended statement at the concrete over-limit scenario. -/
theorem rateLimited_apology_reply_witness :
    handleAutoReply exSettingsC2 exMsgIn (10 * 60) exLLMLimited (.ok "real reply") true =
      ⟨[("111", rateLimitMessage)],
       some ⟨"111", "Bob", "hello", rateLimitMessage, "llm", false, true⟩,
       exLLMLimited.requestCount⟩ := by
  exact rateLimited_apology_reply exSettingsC2 exMsgIn (10 * 60) exLLMLimited
    (.ok "real reply") rfl rfl (by decide) (by decide) rfl rfl rfl (by decide)

/-- C5 counterexample: a send attempt whose transport send fails produces no
`AutoReplyRecord` at all — `trackAutoReply` is skipped by the catch block —
contradicting "exactly one record whether the send succeeds or fails". -/
theorem sendFailure_noRecord_cex :
    (handleAutoReply exSettingsC2 exMsgIn (10 * 60) exLLMOn (.ok "real reply") false).sends
      ≠ []
    ∧ (handleAutoReply exSettingsC2 exMsgIn (10 * 60) exLLMOn (.ok "real reply") false).record
      = none := by
  decide

/-- C5 (amended): for every message that passes the gate, a successful
transport send produces exactly one `AutoReplyRecord` (and one send); a
failed transport send produces no record and the gate additionally attempts
a single generic failure notice. -/
theorem sendAttempt_record_behavior (settings : GateSettings) (msg : MsgIn)
    (nowMin : Nat) (llmSt : LLMState) (pr : Except String String)
    (har : settings.autoReply = true) (hfm : msg.fromMe = false)
    (hallow : (settings.allowedContacts.length > 0
        && !(settings.allowedContacts.contains msg.sender)) = false)
    (hblock : settings.blockedContacts.contains msg.sender = false) :
    ((handleAutoReply settings msg nowMin llmSt pr true).record.isSome = true
      ∧ (handleAutoReply settings msg nowMin llmSt pr true).sends.length = 1)
    ∧ ((handleAutoReply settings msg nowMin llmSt pr false).record = none
      ∧ (handleAutoReply settings msg nowMin llmSt pr false).sends
          = (handleAutoReply settings msg nowMin llmSt pr true).sends
            ++ [(msg.sender, replyFailureNotice)]) := by
  have hallow' : ¬(0 < settings.allowedContacts.length
      ∧ msg.sender ∉ settings.allowedContacts) := by
    rintro ⟨h1, h2⟩
    simp [h1, h2] at hallow
  have hblock' : msg.sender ∉ settings.blockedContacts := by
    simpa using hblock
  unfold handleAutoReply
  simp [har, hfm, hallow', hblock']

/-- C5 witness: the amended statement at a concrete passing message. -/
theorem sendAttempt_record_behavior_witness :
    ((handleAutoReply exSettingsC2 exMsgIn (10 * 60) exLLMOn (.ok "real reply") true).record.isSome
        = true
      ∧ (handleAutoReply exSettingsC2 exMsgIn (10 * 60) exLLMOn (.ok "real reply") true).sends.length
        = 1)
    ∧ ((handleAutoReply exSettingsC2 exMsgIn (10 * 60) exLLMOn (.ok "real reply") false).record
        = none
      ∧ (handleAutoReply exSettingsC2 exMsgIn (10 * 60) exLLMOn (.ok "real reply") false).sends
        = (handleAutoReply exSettingsC2 exMsgIn (10 * 60) exLLMOn (.ok "real reply") true).sends
          ++ [("111", replyFailureNotice)]) := by
  exact sendAttempt_record_behavior exSettingsC2 exMsgIn (10 * 60) exLLMOn
    (.ok "real reply") rfl rfl (by decide) (by decide)

/-- C6: on the single-contact sequence
`[in@t0, out@t0+5s, in@t0+10s, in@t0+20s, out@t0+25s]` the adjacent-pair scan
yields exactly the two samples 5s and 5s (so `{average, fastest, slowest}` is
`{5, 5, 5}`), and whenever no adjacent in→out pair qualifies the result is
`{average: 0, fastest: 0, slowest: 0}`. -/
theorem responseTimes_pairing :
    responseTimesOf exC6Msgs = [5, 5]
    ∧ calculateResponseTimes exC6Msgs = ⟨5, 5, 5⟩
    ∧ ∀ msgs : List MsgData, responseTimesOf msgs = [] →
        calculateResponseTimes msgs = ⟨0, 0, 0⟩ := by
  refine ⟨?_, ?_, ?_⟩
  · norm_num [responseTimesOf, groupByContact, exC6Msgs, addToGroup, jsOrOpt, jsTruthy,
      sortByTs, insertByTs, pairSamples, show ("c" : String) ≠ "" by decide,
      show ("incoming" : String) ≠ "outgoing" by decide,
      show ("outgoing" : String) ≠ "incoming" by decide]
  · norm_num [calculateResponseTimes, responseTimesOf, groupByContact, exC6Msgs, addToGroup,
      jsOrOpt, jsTruthy, sortByTs, insertByTs, pairSamples, jsRound,
      show ("c" : String) ≠ "" by decide,
      show ("incoming" : String) ≠ "outgoing" by decide,
      show ("outgoing" : String) ≠ "incoming" by decide]
  · intro msgs h
    unfold calculateResponseTimes
    rw [h]

/-- C6 witness: a two-message incoming-only sequence has no qualifying pair,
so the result is all zeros. -/
theorem responseTimes_pairing_witness :
    calculateResponseTimes exC6NoPair = ⟨0, 0, 0⟩ :=
  responseTimes_pairing.2.2 exC6NoPair (by decide)

/-- The daily-stats component of `updateAnalytics`, isolated. -/
theorem updateAnalytics_dailyStats_eq (tz : Nat) (st : AnalyticsState) (m : MsgData) :
    (updateAnalytics tz st m).dailyStats
      = setKV st.dailyStats (dateKey m.timestamp)
          (dayStep m ((lookupKV st.dailyStats (dateKey m.timestamp)).getD ⟨0, 0, 0, 0⟩)) :=
  rfl

/-- `dayStep` increments `total` by one and exactly one of the three
category counters, so it preserves the per-day invariant. -/
theorem dayStep_inv (m : MsgData) (d : DayStats) (hd : dayInv d) :
    dayInv (dayStep m d) := by
  unfold dayInv at hd ⊢
  unfold dayStep
  split_ifs <;> simp <;> omega

/-- One `updateAnalytics` call preserves the per-day invariant for every key. -/
theorem updateAnalytics_preserves_dayInv (tz : Nat) (st : AnalyticsState) (m : MsgData)
    (hst : ∀ k d, lookupKV st.dailyStats k = some d → dayInv d) :
    ∀ k d, lookupKV (updateAnalytics tz st m).dailyStats k = some d → dayInv d := by
  intro k d hd
  rw [updateAnalytics_dailyStats_eq, lookupKV_setKV] at hd
  by_cases hk : dateKey m.timestamp = k
  · rw [if_pos hk, Option.some_inj] at hd
    subst hd
    apply dayStep_inv
    cases hl : lookupKV st.dailyStats (dateKey m.timestamp) with
    | none => simp [hl, dayInv]
    | some d0 => simpa [hl] using hst _ _ hl
  · rw [if_neg hk] at hd
    exact hst _ _ hd

/-- C10: after any sequence of `updateAnalytics` calls starting from the
initial analytics state, every per-date daily-stat record satisfies
`total = sent + received + failed`. -/
theorem analytics_daily_invariant (tz : Nat) (msgs : List MsgData) :
    ∀ k d, lookupKV ((msgs.foldl (updateAnalytics tz) initAnalytics)).dailyStats k = some d →
      d.total = d.sent + d.received + d.failed := by
  suffices h : ∀ st : AnalyticsState,
      (∀ k d, lookupKV st.dailyStats k = some d → dayInv d) →
      ∀ k d, lookupKV ((msgs.foldl (updateAnalytics tz) st)).dailyStats k = some d →
        dayInv d by
    intro k d hd
    exact h initAnalytics (by intro k' d' h'; simp [initAnalytics, lookupKV] at h') k d hd
  induction msgs with
  | nil => intro st h; simpa using h
  | cons m rest ih =>
      intro st h
      exact ih _ (updateAnalytics_preserves_dayInv tz st m h)

/-- C10 witness: the invariant read off after one incoming message. -/
theorem analytics_daily_invariant_witness :
    lookupKV (([exIncomingMsg].foldl (updateAnalytics 0) initAnalytics)).dailyStats 0
      = some ⟨1, 0, 1, 0⟩
    ∧ (1 : Nat) = 0 + 1 + 0 :=
  ⟨by decide, analytics_daily_invariant 0 [exIncomingMsg] 0 ⟨1, 0, 1, 0⟩ (by decide)⟩

end WhatsAppBot
